import Mathlib

/-!
Shallow embedding of the incremental synchronization engine of the
gmsync repository (`src/sync.py`, `src/main.py`).

Timestamps are modelled as integers (seconds since the epoch); Python's
`datetime`/`EWSDateTime` values only ever enter order comparisons and
differences, so this loses nothing the claims depend on.  Optional
values (`None` in Python) are modelled with `Option`.  Python truthiness
of a message identifier (`if mid:`) is `midTruthy`: both `None` and the
empty string are falsy.  Network effects (the remote duplicate-existence
query, the destination import call) are modelled by per-candidate
outcome oracles supplied as inputs, so the engine itself stays a pure
function of its inputs.
-/

namespace Gmsync

/-- Outcome of the remote duplicate-existence query
(`service.users().messages().list(...)` in `search_gmail_for_duplicate`,
src/sync.py lines 227-239): a match is found, no match is found, or the
call raises a network/service error. -/
inductive RemoteResult where
  | found : RemoteResult
  | notFound : RemoteResult
  | err : RemoteResult
deriving DecidableEq, Repr

/-- A source message as consumed by the engine
(`item` in src/sync.py; fields fetched at lines 435-443).
`mime_content` is abstracted to a string. -/
structure Item where
  message_id : Option String
  subject : String
  sender : String
  datetime_received : Option Int
  datetime_sent : Option Int
  mime_content : String
deriving DecidableEq, Repr

/-- Python truthiness of a message identifier: `None` and `""` are falsy. -/
def midTruthy : Option String → Bool
  | none => false
  | some s => s ≠ ""

/-- Python `a or b` on two optional timestamps (a datetime object is
always truthy), as in `getattr(item, "datetime_received", None) or
getattr(item, "datetime_sent", None)` (src/sync.py lines 268-270). -/
def pyOr (a b : Option Int) : Option Int :=
  match a with
  | some x => some x
  | none => b

/-- A record stored in the duplicate cache (`duplicates_db[mid] = {...}`,
src/sync.py lines 271-277).  `detected_at` is optional because the
cleanup sweep reads it with `record.get("detected_at", 0)`; records the
engine itself creates always carry it. -/
structure DupRecord where
  message_id : String
  subject : String
  sender : String
  date : Option Int
  detected_at : Option Int
deriving DecidableEq, Repr

/-- The duplicate cache: a dict keyed by message identifier,
modelled as an association list. -/
abbrev DupDb := List (String × DupRecord)

/-- Dict assignment `db[k] = v`: replace the binding for `k` if present,
else append it. -/
def dbInsert (db : DupDb) (k : String) (v : DupRecord) : DupDb :=
  if (db.map Prod.fst).contains k then
    db.map (fun kv => if kv.1 = k then (k, v) else kv)
  else
    db ++ [(k, v)]

/-- `search_gmail_for_duplicate` (src/sync.py lines 214-239).
Returns `(result, remoteCalled)`: the boolean the function returns and
whether the remote query was actually issued.  The query is issued only
when duplicate checking is on and the identifier is truthy; a raised
error (`RemoteResult.err`) is caught and the function returns false. -/
def search_gmail_for_duplicate (checkDuplicates : Bool)
    (message_id : Option String) (remote : RemoteResult) : Bool × Bool :=
  if checkDuplicates = false || midTruthy message_id = false then
    (false, false)
  else
    match remote with
    | .found => (true, true)
    | .notFound => (false, true)
    | .err => (false, true)

/-- Result of the duplicate decision: the boolean returned, the
duplicate cache after the call, and whether a remote query was issued. -/
structure DupCheckOut where
  isDup : Bool
  db : DupDb
  remoteCalled : Bool
deriving DecidableEq, Repr

/-- `is_duplicate_email` (src/sync.py lines 242-282).
Decision order: global kill-switch, local seen-set check
(`if mid and mid in seen`), missing-identifier fail-open
(`if not mid`), then the remote query; on a confirmed remote duplicate a
`DupRecord` is written into the cache with `detected_at = now`. -/
def is_duplicate_email (checkDuplicates : Bool) (item : Item)
    (seen : List String) (db : DupDb) (remote : RemoteResult)
    (now : Int) : DupCheckOut :=
  if checkDuplicates = false then
    ⟨false, db, false⟩
  else
    let mid := item.message_id
    if midTruthy mid && seen.contains (mid.getD "") then
      ⟨true, db, false⟩
    else if midTruthy mid = false then
      ⟨false, db, false⟩
    else
      let res := search_gmail_for_duplicate checkDuplicates mid remote
      if res.1 then
        let dt_val := pyOr item.datetime_received item.datetime_sent
        ⟨true,
         dbInsert db (mid.getD "")
           ⟨mid.getD "", item.subject, item.sender, dt_val, some now⟩,
         res.2⟩
      else
        ⟨false, db, res.2⟩

/-- Which timestamp field a folder pass orders and filters by:
`datetime_received` for the inbox, `datetime_sent` for sent items. -/
inductive DtField where
  | received : DtField
  | sent : DtField
deriving DecidableEq, Repr

/-- `getattr(item, dt_field)` for the chosen field. -/
def Item.dtVal (it : Item) : DtField → Option Int
  | .received => it.datetime_received
  | .sent => it.datetime_sent

/-- Python truthiness of the optional item `limit` (`if limit:`
treats both `None` and `0` as falsy). -/
def limitTruthy : Option Nat → Bool
  | none => false
  | some n => n ≠ 0

/-- A candidate as iterated by the folder pass, bundling the source
item with the outcome oracles for the two network effects that may
happen while processing it: the remote duplicate-existence query and
the destination import call (`importOk = false` models `import_raw`
raising). -/
structure Candidate where
  item : Item
  remote : RemoteResult
  importOk : Bool
deriving DecidableEq, Repr

/-- Static parameters of one `sync_folder_timebased` call
(src/sync.py lines 404-418) together with the module-level
configuration it reads: `CHECK_DUPLICATES`, `IMPORT_LAST_DAYS` (days),
`SYNC_GRACE_MINUTES` (minutes). -/
structure SyncArgs where
  checkDuplicates : Bool
  importLastDays : Nat
  syncGraceMinutes : Nat
  dt_field : DtField
  limit : Option Nat
  ignore_state : Bool
  ignore_seen : Bool
  dry_run : Bool
deriving DecidableEq, Repr

/-- The read-side clamp of the stored watermark (src/sync.py lines
422-433): a stored timestamp later than the current wall clock is
pulled back to `now - 1 minute`. -/
def clampLastDt (last_dt : Option Int) (nowClamp : Int) : Option Int :=
  match last_dt with
  | none => none
  | some w => if w > nowClamp then some (nowClamp - 60) else some w

/-- The window computation (src/sync.py lines 445-458): the age cutoff
`now - IMPORT_LAST_DAYS` (absent when `IMPORT_LAST_DAYS` is falsy), the
watermark-derived bound `last_dt - SYNC_GRACE_MINUTES`, and the later
of the two when both exist (`cutoff if cutoff > effective else
effective`, otherwise `effective or cutoff`). -/
def computeThreshold (importLastDays : Nat) (syncGraceMinutes : Nat)
    (ignore_state : Bool) (last_dt : Option Int) (nowQuery : Int) :
    Option Int :=
  let cutoff : Option Int :=
    if importLastDays ≠ 0 then some (nowQuery - importLastDays * 86400)
    else none
  let effective_last : Option Int :=
    match last_dt with
    | some w => if ignore_state = false then some (w - syncGraceMinutes * 60)
                else none
    | none => none
  match cutoff, effective_last with
  | some c, some e => some (if c > e then c else e)
  | _, _ => pyOr effective_last cutoff

/-- The server-side filter `qs.filter(dt_field__gt=threshold)`
(src/sync.py line 461): keeps exactly the candidates whose chosen
timestamp exists and is strictly greater than the threshold; with no
threshold no filtering occurs. -/
def applyThreshold (f : DtField) (threshold : Option Int)
    (items : List Candidate) : List Candidate :=
  match threshold with
  | none => items
  | some t =>
      items.filter (fun c =>
        match c.item.dtVal f with
        | some v => t < v
        | none => false)

/-- Mutable state of the per-candidate loop (src/sync.py lines
484-487): the import counter, the duplicate counter, the running
newest-observed timestamp, the seen set and the optional duplicate
cache.  `examined` counts how many candidates the loop has entered
(instrumentation only; nothing reads it). -/
structure LoopState where
  count : Nat
  duplicates_skipped : Nat
  newest : Option Int
  seen : List String
  db : Option DupDb
  examined : Nat
deriving DecidableEq, Repr

/-- `if dt_val and (newest is None or dt_val > newest): newest = dt_val`
(src/sync.py lines 492-494 and alike). -/
def updNewest (newest : Option Int) (dt_val : Option Int) : Option Int :=
  match dt_val with
  | none => newest
  | some v =>
      match newest with
      | none => some v
      | some n => if v > n then some v else some n

/-- One iteration of the candidate loop (src/sync.py lines 488-523).
Returns the new loop state and whether control reaches the trailing
limit check (the seen-skip and duplicate-skip branches `continue` past
it). -/
def stepItem (a : SyncArgs) (nowDetect : Int) (s : LoopState)
    (c : Candidate) : LoopState × Bool :=
  let s := { s with examined := s.examined + 1 }
  let mid := c.item.message_id
  if a.ignore_seen = false && midTruthy mid
      && s.seen.contains (mid.getD "") then
    ({ s with newest := updNewest s.newest (c.item.dtVal a.dt_field) }, false)
  else
    match s.db with
    | some db =>
        let out := is_duplicate_email a.checkDuplicates c.item s.seen db
          c.remote nowDetect
        if out.isDup then
          ({ s with duplicates_skipped := s.duplicates_skipped + 1,
                    newest := updNewest s.newest (c.item.dtVal a.dt_field),
                    db := some out.db }, false)
        else
          stepImport a s c (some out.db)
    | none => stepImport a s c none
where
  /-- The import branch (src/sync.py lines 507-523): unless `dry_run`,
  hand the raw content to the destination and add the identifier to the
  seen set; a raised import error skips the counter, the seen-set add
  and the newest update for this one candidate. -/
  stepImport (a : SyncArgs) (s : LoopState) (c : Candidate)
      (db : Option DupDb) : LoopState × Bool :=
    if a.dry_run = false && c.importOk = false then
      ({ s with db := db }, true)
    else
      let seen' :=
        if a.dry_run = false && midTruthy c.item.message_id then
          s.seen.insert (c.item.message_id.getD "")
        else s.seen
      ({ s with count := s.count + 1,
                seen := seen',
                newest := updNewest s.newest (c.item.dtVal a.dt_field),
                db := db }, true)

/-- The candidate loop with the early stop
`if limit and count >= limit: break` (src/sync.py line 525-526). -/
def runLoop (a : SyncArgs) (nowDetect : Int) :
    List Candidate → LoopState → LoopState
  | [], s => s
  | c :: cs, s =>
      let st := stepItem a nowDetect s c
      if st.2 && limitTruthy a.limit && a.limit.getD 0 ≤ st.1.count then st.1
      else runLoop a nowDetect cs st.1

/-- Result of one folder pass: the returned import count plus the
state the call mutates (the stored watermark for this folder key, the
seen set, the duplicate cache) and the loop instrumentation. -/
structure SyncResult where
  count : Nat
  duplicates_skipped : Nat
  newStored : Option Int
  seen : List String
  db : Option DupDb
  examined : Nat
deriving DecidableEq, Repr

/-- `sync_folder_timebased` (src/sync.py lines 404-542), success path
(no exception is raised outside the per-candidate try).  `stored` is
`state.get(state_key + "_dt")`; `allItems` is the folder's content as
the source adapter yields it after ordering by `dt_field` ascending
(ordering is the adapter's contract, carried as a hypothesis where a
theorem needs it); `nowClamp`, `nowQuery`, `nowCommit` are the three
`EWSDateTime.now` readings at lines 423, 446 and 530, and `nowDetect`
the `time.time()` reading used for `detected_at`. -/
def sync_folder_timebased (a : SyncArgs)
    (nowClamp nowQuery nowDetect nowCommit : Int)
    (stored : Option Int) (allItems : List Candidate)
    (seen : List String) (db : Option DupDb) : SyncResult :=
  let last_dt_raw : Option Int := if a.ignore_state = false then stored else none
  let last_dt := clampLastDt last_dt_raw nowClamp
  let threshold := computeThreshold a.importLastDays a.syncGraceMinutes
    a.ignore_state last_dt nowQuery
  let qs := applyThreshold a.dt_field threshold allItems
  let qs := if limitTruthy a.limit then qs.take (a.limit.getD 0) else qs
  let s0 : LoopState := ⟨0, 0, last_dt, seen, db, 0⟩
  let s := runLoop a nowDetect qs s0
  let newStored : Option Int :=
    match s.newest with
    | some n =>
        if a.ignore_state = false && a.dry_run = false then
          some (if n > nowCommit then nowCommit else n)
        else stored
    | none => stored
  ⟨s.count, s.duplicates_skipped, newStored, s.seen, s.db, s.examined⟩

/-- `cleanup_old_duplicates` (src/sync.py lines 285-300).
First collects the keys of stale records
(`record.get("detected_at", 0) < current_time - max_age_seconds`), then
deletes those keys from the dict; returns the new cache and the number
of keys removed. -/
def cleanup_old_duplicates (db : DupDb) (now : Int) (max_age_days : Int) :
    DupDb × Nat :=
  let max_age_seconds := max_age_days * 24 * 3600
  let keys_to_remove :=
    (db.filter (fun kv => kv.2.detected_at.getD 0 < now - max_age_seconds)).map
      Prod.fst
  ((db.filter (fun kv => !keys_to_remove.contains kv.1)), keys_to_remove.length)

/-- The three runtime-state files in `RUNTIME_DIR`
(src/main.py lines 30-32): `state.json`, `seen.json`,
`duplicates.json`.  `none` models a file that does not exist. -/
structure RuntimeFiles where
  stateFile : Option (Option Int × Option Int)
  seenFile : Option (List String)
  duplicatesFile : Option DupDb
deriving DecidableEq, Repr

/-- `_save_runtime_state` (src/main.py lines 72-79): three sequential
`json.dump` calls, one file each, in the order state, seen,
duplicates.  `ok1 ok2 ok3` model whether each write succeeds; a failed
write raises, so later writes are not attempted and the earlier ones
stay on disk.  Returns the resulting files and whether the whole save
completed. -/
def saveRuntimeState (files : RuntimeFiles)
    (state : Option Int × Option Int) (seen : List String) (db : DupDb)
    (ok1 ok2 ok3 : Bool) : RuntimeFiles × Bool :=
  if ok1 = false then (files, false)
  else
    let f1 := { files with stateFile := some state }
    if ok2 = false then (f1, false)
    else
      let f2 := { f1 with seenFile := some seen }
      if ok3 = false then (f2, false)
      else ({ f2 with duplicatesFile := some db }, true)

/-- The events of a coordinator pass that the claims about pass
structure talk about: a duplicate-cache sweep
(`cleanup_old_duplicates`), a folder sync, a state save, a statistics
report. -/
inductive PassEv where
  | sweep : PassEv
  | syncFolder : PassEv
  | save : PassEv
  | stats : PassEv
deriving DecidableEq, Repr

/-- Event trace of `run_sync_once` (src/main.py lines 82-194) on its
success path.  With `TEST_LIMIT` set (test mode, lines 98-148) the
function syncs the two folders and prints statistics, then returns:
no sweep, no save.  Otherwise (fast mode, lines 150-194) it sweeps
(line 151), syncs the two folders, saves (line 186), prints statistics
(line 188) and sweeps again (line 189). -/
def run_sync_once_events (testLimit : Option Nat) : List PassEv :=
  if testLimit.isSome then
    [.syncFolder, .syncFolder, .stats]
  else
    [.sweep, .syncFolder, .syncFolder, .save, .stats, .sweep]

/-- Event trace of `run_sync_deep_once` (src/main.py lines 201-276) on
its success path: two folder syncs with `ignore_state=True`, a save
(line 266) and statistics (line 267).  `cleanup_old_duplicates` is
never called. -/
def run_sync_deep_once_events : List PassEv :=
  [.syncFolder, .syncFolder, .save, .stats]

/-! ## Theorems about the duplicate decision -/

/-- C3: for every candidate whose identifier is present in the SeenSet,
with duplicate checking enabled, `is_duplicate_email` returns true and
no remote existence query is issued. -/
theorem C3_seen_hit_no_remote (item : Item) (s : String)
    (seen : List String) (db : DupDb) (remote : RemoteResult) (now : Int)
    (hmid : item.message_id = some s) (hne : s ≠ "") (hseen : s ∈ seen) :
    (is_duplicate_email true item seen db remote now).isDup = true ∧
    (is_duplicate_email true item seen db remote now).remoteCalled = false := by
  simp [is_duplicate_email, hmid, midTruthy, hne, hseen]

/-- Witness for C3 at a concrete candidate. -/
theorem C3_seen_hit_no_remote_witness :
    (is_duplicate_email true
      ⟨some "id1", "subj", "al", some 5, none, "raw"⟩
      ["id0", "id1"] [] .found 100).isDup = true ∧
    (is_duplicate_email true
      ⟨some "id1", "subj", "al", some 5, none, "raw"⟩
      ["id0", "id1"] [] .found 100).remoteCalled = false :=
  C3_seen_hit_no_remote ⟨some "id1", "subj", "al", some 5, none, "raw"⟩
    "id1" ["id0", "id1"] [] .found 100 rfl (by decide) (by decide)

/-- C4: for a candidate with an identifier not yet seen, a failing
remote existence query makes the duplicate decision fail open: it
returns false and records nothing in the cache. -/
theorem C4_remote_error_fails_open (item : Item) (s : String)
    (seen : List String) (db : DupDb) (now : Int)
    (hmid : item.message_id = some s) (hne : s ≠ "") (hseen : s ∉ seen) :
    (is_duplicate_email true item seen db .err now).isDup = false ∧
    (is_duplicate_email true item seen db .err now).db = db := by
  simp [is_duplicate_email, hmid, midTruthy, hne, hseen,
    search_gmail_for_duplicate]

/-- Witness for C4 at a concrete candidate. -/
theorem C4_remote_error_fails_open_witness :
    (is_duplicate_email true
      ⟨some "id9", "s", "al", some 5, none, "raw"⟩
      ["id0"] [] .err 100).isDup = false ∧
    (is_duplicate_email true
      ⟨some "id9", "s", "al", some 5, none, "raw"⟩
      ["id0"] [] .err 100).db = [] :=
  C4_remote_error_fails_open ⟨some "id9", "s", "al", some 5, none, "raw"⟩
    "id9" ["id0"] [] 100 rfl (by decide) (by decide)

/-- C5: a candidate without a message identifier (absent, or the empty
string, which the code treats as absent) is never classified as a
duplicate, whatever the SeenSet, the cache, the remote outcome and the
global duplicate-check switch. -/
theorem C5_no_identifier_not_duplicate (checkDuplicates : Bool)
    (item : Item) (seen : List String) (db : DupDb)
    (remote : RemoteResult) (now : Int)
    (hmid : midTruthy item.message_id = false) :
    (is_duplicate_email checkDuplicates item seen db remote now).isDup
      = false ∧
    (is_duplicate_email checkDuplicates item seen db remote now).db = db := by
  cases checkDuplicates with
  | false => simp [is_duplicate_email]
  | true => simp [is_duplicate_email, hmid]

/-- Witness for C5 at a concrete candidate with no identifier. -/
theorem C5_no_identifier_not_duplicate_witness :
    (is_duplicate_email true ⟨none, "s", "al", some 5, none, "raw"⟩
      ["x"] [("x", ⟨"x", "s", "al", none, some 0⟩)] .found 100).isDup
      = false ∧
    (is_duplicate_email true ⟨none, "s", "al", some 5, none, "raw"⟩
      ["x"] [("x", ⟨"x", "s", "al", none, some 0⟩)] .found 100).db
      = [("x", ⟨"x", "s", "al", none, some 0⟩)] :=
  C5_no_identifier_not_duplicate true ⟨none, "s", "al", some 5, none, "raw"⟩
    ["x"] [("x", ⟨"x", "s", "al", none, some 0⟩)] .found 100 (by decide)

/-- C10: the duplicate decision never reads the duplicate cache — for
any two cache contents the returned boolean and the fact of issuing a
remote query are identical, so a cached record never suppresses a
repeat remote existence query. -/
theorem C10_cache_noninterference (checkDuplicates : Bool) (item : Item)
    (seen : List String) (db1 db2 : DupDb) (remote : RemoteResult)
    (now : Int) :
    (is_duplicate_email checkDuplicates item seen db1 remote now).isDup
      = (is_duplicate_email checkDuplicates item seen db2 remote now).isDup ∧
    (is_duplicate_email checkDuplicates item seen db1 remote now).remoteCalled
      = (is_duplicate_email checkDuplicates item seen db2 remote now).remoteCalled := by
  unfold is_duplicate_email
  split
  · exact ⟨rfl, rfl⟩
  · dsimp only
    split
    · exact ⟨rfl, rfl⟩
    · split
      · exact ⟨rfl, rfl⟩
      · split <;> exact ⟨rfl, rfl⟩

/-! ## Theorems about the duplicate-cache sweep -/

/-- Deleting the keys of the entries satisfying `p` from a dict with
distinct keys is the same as filtering out the entries satisfying `p`. -/
lemma filter_not_contains_keys (db : DupDb) (p : String × DupRecord → Bool)
    (hnd : (db.map Prod.fst).Nodup) :
    db.filter (fun kv => !((db.filter p).map Prod.fst).contains kv.1)
      = db.filter (fun kv => !p kv) := by
  apply List.filter_congr
  intro kv hkv
  suffices h : ((db.filter p).map Prod.fst).contains kv.1 = p kv by rw [h]
  by_cases hp : p kv = true
  · have hmem : kv.1 ∈ (db.filter p).map Prod.fst :=
      List.mem_map.mpr ⟨kv, List.mem_filter.mpr ⟨hkv, hp⟩, rfl⟩
    simp [hp, hmem]
  · have hp' : p kv = false := Bool.eq_false_iff.mpr hp
    have hnmem : kv.1 ∉ (db.filter p).map Prod.fst := by
      intro hmem
      obtain ⟨kv', hkv', hfst⟩ := List.mem_map.mp hmem
      have hkv'db := (List.mem_filter.mp hkv').1
      have hpkv' := (List.mem_filter.mp hkv').2
      have heq : kv' = kv :=
        List.inj_on_of_nodup_map hnd hkv'db hkv hfst
      rw [heq, hp'] at hpkv'
      exact Bool.false_ne_true hpkv'
    simp [hp', hnmem]

/-- C7: on any cache with distinct keys and for any `max_age_days`,
the sweep removes exactly the records with
`detected_at < now - max_age_days*86400` (a missing detection time
reads as 0, as in the code's `get("detected_at", 0)`), keeps every
other record unchanged (in order), and returns the number of removed
records. -/
theorem C7_sweep_removes_exactly_stale (db : DupDb) (now maxAgeDays : Int)
    (hnd : (db.map Prod.fst).Nodup) :
    (cleanup_old_duplicates db now maxAgeDays).1
      = db.filter
          (fun kv => !decide (kv.2.detected_at.getD 0 < now - maxAgeDays * 86400)) ∧
    (cleanup_old_duplicates db now maxAgeDays).2
      = (db.filter
          (fun kv => decide (kv.2.detected_at.getD 0 < now - maxAgeDays * 86400))).length := by
  have hsec : maxAgeDays * 24 * 3600 = maxAgeDays * 86400 := by ring
  constructor
  · have := filter_not_contains_keys db
      (fun kv => decide (kv.2.detected_at.getD 0 < now - maxAgeDays * 86400)) hnd
    simpa [cleanup_old_duplicates, hsec] using this
  · simp [cleanup_old_duplicates, hsec]

/-- Witness for C7: under `max_age_days = 30` and `now = 3000000000`,
the record detected 31 days ago is removed and the record detected 29
days ago is retained; the removal count is 1. -/
theorem C7_sweep_removes_exactly_stale_witness :
    (cleanup_old_duplicates
      [("a", ⟨"a", "s1", "al", none, some 2997321600⟩),
       ("b", ⟨"b", "s2", "al", none, some 2997494400⟩)] 3000000000 30).1
      = [("b", ⟨"b", "s2", "al", none, some 2997494400⟩)] ∧
    (cleanup_old_duplicates
      [("a", ⟨"a", "s1", "al", none, some 2997321600⟩),
       ("b", ⟨"b", "s2", "al", none, some 2997494400⟩)] 3000000000 30).2 = 1 ∧
    (cleanup_old_duplicates
      [("a", ⟨"a", "s1", "al", none, some 2997321600⟩),
       ("b", ⟨"b", "s2", "al", none, some 2997494400⟩)] 3000000000 30).1
      = List.filter
          (fun kv => !decide (kv.2.detected_at.getD 0 < 3000000000 - 30 * 86400))
          [("a", ⟨"a", "s1", "al", none, some 2997321600⟩),
           ("b", ⟨"b", "s2", "al", none, some 2997494400⟩)] :=
  ⟨by decide, by decide,
   (C7_sweep_removes_exactly_stale
      [("a", ⟨"a", "s1", "al", none, some 2997321600⟩),
       ("b", ⟨"b", "s2", "al", none, some 2997494400⟩)] 3000000000 30
      (by decide)).1⟩

/-! ## Theorems about state persistence and pass structure -/

/-- C6 counterexample: with the second write failing, the save leaves
the watermark file written with the new state while the seen-set and
duplicate-cache files keep their old contents — neither all three
stores nor none are written, so the save is not all-or-nothing. -/
theorem C6_counterexample :
    ¬ (((saveRuntimeState ⟨none, none, none⟩ (some 7, none) ["x"] []
          true false true).1.stateFile = some (some 7, none) ∧
        (saveRuntimeState ⟨none, none, none⟩ (some 7, none) ["x"] []
          true false true).1.seenFile = some ["x"] ∧
        (saveRuntimeState ⟨none, none, none⟩ (some 7, none) ["x"] []
          true false true).1.duplicatesFile = some []) ∨
       (saveRuntimeState ⟨none, none, none⟩ (some 7, none) ["x"] []
          true false true).1 = ⟨none, none, none⟩) := by
  decide

/-- C6 amended: the save writes the three stores sequentially in the
order watermarks, seen set, duplicate cache; a failed write stops the
save, so exactly a prefix of the three stores is written (the rest keep
their previous contents) and the save completes iff all three writes
succeed — it is not atomic. -/
theorem C6_save_writes_prefix (files : RuntimeFiles)
    (state : Option Int × Option Int) (seen : List String) (db : DupDb)
    (ok1 ok2 ok3 : Bool) :
    (saveRuntimeState files state seen db ok1 ok2 ok3).1.stateFile
      = (if ok1 then some state else files.stateFile) ∧
    (saveRuntimeState files state seen db ok1 ok2 ok3).1.seenFile
      = (if ok1 && ok2 then some seen else files.seenFile) ∧
    (saveRuntimeState files state seen db ok1 ok2 ok3).1.duplicatesFile
      = (if ok1 && ok2 && ok3 then some db else files.duplicatesFile) ∧
    (saveRuntimeState files state seen db ok1 ok2 ok3).2
      = (ok1 && ok2 && ok3) := by
  cases ok1 <;> cases ok2 <;> cases ok3 <;>
    simp [saveRuntimeState]

/-- C8 counterexample: a fast-mode pass (`run_sync_once` with
`TEST_LIMIT = None`) runs the duplicate-cache sweep twice, not exactly
once. -/
theorem C8_counterexample :
    (run_sync_once_events none).count .sweep ≠ 1 := by
  decide

/-- C8 amended: the sweep count depends on the pass mode — a fast
(non-test) pass runs `cleanup_old_duplicates` exactly twice (before the
folder syncs and again after persisting), while test-mode and deep
passes never run it. -/
theorem C8_sweep_counts_by_mode (testLimit : Nat) :
    (run_sync_once_events none).count .sweep = 2 ∧
    (run_sync_once_events (some testLimit)).count .sweep = 0 ∧
    run_sync_deep_once_events.count .sweep = 0 := by
  refine ⟨by decide, ?_, by decide⟩
  simp [run_sync_once_events]

/-! ## Theorems about the query window -/

/-- The code's `cutoff if cutoff > effective else effective` is the
maximum of the two bounds. -/
lemma ite_gt_eq_max (c e : Int) : (if c > e then c else e) = max c e := by
  by_cases h : c > e
  · simp [h, max_eq_left h.le]
  · simp [h, max_eq_right (not_lt.mp h)]

/-- C2: with a defined watermark `T`, configured (non-zero) `maxAgeDays
= d` and `graceMinutes = g`, and the watermark respected, the effective
threshold is `max (now - d*86400) (T - g*60)`; exactly the candidates
whose timestamp is strictly greater than that threshold are listed;
with `ignoreWatermark` only the age cutoff applies; with neither bound
defined no filtering occurs. -/
theorem C2_window_threshold (d g : Nat) (T now : Int) (f : DtField)
    (items : List Candidate) (last : Option Int) (hd : d ≠ 0) :
    computeThreshold d g false (some T) now
      = some (max (now - d * 86400) (T - g * 60)) ∧
    (∀ c, c ∈ applyThreshold f
            (some (max (now - d * 86400) (T - g * 60))) items
        ↔ c ∈ items ∧ ∃ v, c.item.dtVal f = some v
            ∧ max (now - d * 86400) (T - g * 60) < v) ∧
    computeThreshold d g true last now = some (now - d * 86400) ∧
    computeThreshold 0 g false none now = none ∧
    applyThreshold f none items = items := by
  refine ⟨?_, ?_, ?_, ?_, rfl⟩
  · simp [computeThreshold, hd, ite_gt_eq_max]
  · intro c
    simp only [applyThreshold, List.mem_filter]
    constructor
    · rintro ⟨hc, hp⟩
      refine ⟨hc, ?_⟩
      cases hdt : c.item.dtVal f with
      | none => rw [hdt] at hp; exact absurd hp (by simp)
      | some v => rw [hdt] at hp; exact ⟨v, rfl, by simpa using hp⟩
    · rintro ⟨hc, v, hdt, hv⟩
      refine ⟨hc, ?_⟩
      rw [hdt]
      simpa using hv
  · cases last <;> simp [computeThreshold, hd, pyOr]
  · simp [computeThreshold, pyOr]

/-- Witness for C2 at the spec's own example parameters
(`maxAgeDays = 2`, `graceMinutes = 180`). -/
theorem C2_window_threshold_witness :
    computeThreshold 2 180 false (some 1000000) 2000000
      = some (max ((2000000 : Int) - 2 * 86400) ((1000000 : Int) - 180 * 60)) ∧
    (∀ c, c ∈ applyThreshold .received
            (some (max ((2000000 : Int) - 2 * 86400) ((1000000 : Int) - 180 * 60)))
            [⟨⟨some "m1", "s", "al", some 990000, none, "r"⟩, .notFound, true⟩]
        ↔ c ∈ [(⟨⟨some "m1", "s", "al", some 990000, none, "r"⟩, .notFound, true⟩ : Candidate)]
            ∧ ∃ v, c.item.dtVal .received = some v
              ∧ max ((2000000 : Int) - 2 * 86400) ((1000000 : Int) - 180 * 60) < v) ∧
    computeThreshold 2 180 true (some 1000000) 2000000
      = some ((2000000 : Int) - 2 * 86400) ∧
    computeThreshold 0 180 false none 2000000 = none ∧
    applyThreshold .received none
      [⟨⟨some "m1", "s", "al", some 990000, none, "r"⟩, .notFound, true⟩]
      = [⟨⟨some "m1", "s", "al", some 990000, none, "r"⟩, .notFound, true⟩] :=
  C2_window_threshold 2 180 1000000 2000000 .received
    [⟨⟨some "m1", "s", "al", some 990000, none, "r"⟩, .notFound, true⟩]
    (some 1000000) (by decide)

/-! ## Theorems about the watermark -/

/-- The newest-observed tracker never decreases. -/
lemma updNewest_some_mono (n : Int) (v : Option Int) :
    ∃ m, updNewest (some n) v = some m ∧ n ≤ m := by
  cases v with
  | none => exact ⟨n, rfl, le_refl n⟩
  | some x =>
      by_cases h : x > n
      · exact ⟨x, by simp [updNewest, h], h.le⟩
      · exact ⟨n, by simp [updNewest, h], le_refl n⟩

/-- The import branch never decreases the newest-observed tracker. -/
lemma stepImport_newest (a : SyncArgs) (s : LoopState) (c : Candidate)
    (db : Option DupDb) (n : Int) (hn : s.newest = some n) :
    ∃ m, ((stepItem.stepImport a s c db).1).newest = some m ∧ n ≤ m := by
  unfold stepItem.stepImport
  by_cases h : (a.dry_run = false && c.importOk = false) = true
  · refine ⟨n, ?_, le_refl n⟩
    rw [if_pos h]
    exact hn
  · obtain ⟨m, hm, hnm⟩ := updNewest_some_mono n (c.item.dtVal a.dt_field)
    refine ⟨m, ?_, hnm⟩
    rw [if_neg h]
    show updNewest s.newest (c.item.dtVal a.dt_field) = some m
    rw [hn]
    exact hm

/-- One loop iteration never decreases the newest-observed tracker. -/
lemma stepItem_newest (a : SyncArgs) (t : Int) (s : LoopState)
    (c : Candidate) (n : Int) (hn : s.newest = some n) :
    ∃ m, ((stepItem a t s c).1).newest = some m ∧ n ≤ m := by
  unfold stepItem
  dsimp only
  split
  · obtain ⟨m, hm, hnm⟩ := updNewest_some_mono n (c.item.dtVal a.dt_field)
    refine ⟨m, ?_, hnm⟩
    show updNewest s.newest (c.item.dtVal a.dt_field) = some m
    rw [hn]
    exact hm
  · split
    · split
      · obtain ⟨m, hm, hnm⟩ := updNewest_some_mono n (c.item.dtVal a.dt_field)
        refine ⟨m, ?_, hnm⟩
        show updNewest s.newest (c.item.dtVal a.dt_field) = some m
        rw [hn]
        exact hm
      · exact stepImport_newest a _ c _ n hn
    · exact stepImport_newest a _ c _ n hn

/-- The candidate loop never decreases the newest-observed tracker. -/
lemma runLoop_newest (a : SyncArgs) (t : Int) (cs : List Candidate) :
    ∀ (s : LoopState) (n : Int), s.newest = some n →
      ∃ m, (runLoop a t cs s).newest = some m ∧ n ≤ m := by
  induction cs with
  | nil => exact fun s n hn => ⟨n, hn, le_refl n⟩
  | cons c cs ih =>
      intro s n hn
      obtain ⟨m, hm, hnm⟩ := stepItem_newest a t s c n hn
      unfold runLoop
      dsimp only
      split
      · exact ⟨m, hm, hnm⟩
      · obtain ⟨k, hk, hmk⟩ := ih (stepItem a t s c).1 m hm
        exact ⟨k, hk, le_trans hnm hmk⟩

/-- C1: for a pass that respects the watermark and is not a dry run,
when the stored watermark `W` is not in the future at read time (the
read-side clamp does not fire) and the clock does not go backwards
between the read and the commit, the committed watermark `W'` satisfies
`W ≤ W'` and `W' ≤ nowCommit` (a future newest timestamp is clamped to
the commit-time clock before being stored).  Non-decrease across any
sequence of such successful passes is this fact applied pass by pass. -/
theorem C1_watermark_monotone_bounded (a : SyncArgs)
    (nowClamp nowQuery nowDetect nowCommit W : Int)
    (items : List Candidate) (seen : List String) (db : Option DupDb)
    (hi : a.ignore_state = false) (hdr : a.dry_run = false)
    (hW : W ≤ nowClamp) (hcc : nowClamp ≤ nowCommit) :
    ∃ W', (sync_folder_timebased a nowClamp nowQuery nowDetect nowCommit
        (some W) items seen db).newStored = some W' ∧
      W ≤ W' ∧ W' ≤ nowCommit := by
  have hclamp : clampLastDt (some W) nowClamp = some W := by
    simp [clampLastDt, not_lt.mpr hW]
  simp only [sync_folder_timebased, hi, hdr, hclamp, Bool.and_self, if_true]
  obtain ⟨n, hn, hWn⟩ := runLoop_newest a nowDetect _
    ⟨0, 0, some W, seen, db, 0⟩ W rfl
  rw [hn]
  dsimp only
  by_cases hfut : n > nowCommit
  · exact ⟨nowCommit, by simp [hfut], le_trans hW hcc, le_refl _⟩
  · exact ⟨n, by simp [hfut], hWn, not_lt.mp hfut⟩

/-- Witness for C1 at a concrete pass. -/
theorem C1_watermark_monotone_bounded_witness :
    ∃ W', (sync_folder_timebased ⟨true, 2, 180, .received, none, false, false, false⟩
        0 10 10 20 (some 0) [] [] (some [])).newStored = some W' ∧
      (0 : Int) ≤ W' ∧ W' ≤ 20 :=
  C1_watermark_monotone_bounded ⟨true, 2, 180, .received, none, false, false, false⟩
    0 10 10 20 0 [] [] (some []) rfl rfl (by decide) (by decide)

/-- The newest-observed tracker takes the maximum. -/
lemma updNewest_some_some (n v : Int) :
    updNewest (some n) (some v) = some (max n v) := by
  by_cases h : v > n
  · simp [updNewest, h, max_eq_right h.le]
  · simp [updNewest, h, max_eq_left (not_lt.mp h)]

/-- C9: a pass over an ordered sequence of three new candidates, none
a duplicate, with item limit 2 and no age cutoff, imports exactly 2
messages, examines only 2 candidates (the third is never processed),
and commits the watermark exactly at the second message's timestamp. -/
theorem C9_limit_stops_early (a : SyncArgs) (c1 c2 c3 : Candidate)
    (nowClamp nowQuery nowDetect nowCommit t1 t2 : Int)
    (seen : List String) (db : DupDb) (mid1 mid2 : String)
    (hck : a.checkDuplicates = true) (hd : a.importLastDays = 0)
    (hl : a.limit = some 2) (hi : a.ignore_state = false)
    (hs : a.ignore_seen = false) (hdr : a.dry_run = false)
    (hm1 : c1.item.message_id = some mid1) (hm1ne : mid1 ≠ "")
    (hm2 : c2.item.message_id = some mid2) (hm2ne : mid2 ≠ "")
    (hns1 : mid1 ∉ seen) (hns2 : mid2 ∉ seen) (hneq : mid2 ≠ mid1)
    (hdt1 : c1.item.dtVal a.dt_field = some t1)
    (hdt2 : c2.item.dtVal a.dt_field = some t2)
    (ht12 : t1 ≤ t2) (ht2now : t2 ≤ nowCommit)
    (hr1 : c1.remote = .notFound) (hr2 : c2.remote = .notFound)
    (hio1 : c1.importOk = true) (hio2 : c2.importOk = true) :
    (sync_folder_timebased a nowClamp nowQuery nowDetect nowCommit none
        [c1, c2, c3] seen (some db)).count = 2 ∧
    (sync_folder_timebased a nowClamp nowQuery nowDetect nowCommit none
        [c1, c2, c3] seen (some db)).examined = 2 ∧
    (sync_folder_timebased a nowClamp nowQuery nowDetect nowCommit none
        [c1, c2, c3] seen (some db)).newStored = some t2 := by
  obtain ⟨cd, ild, g, f, lim, igs, isn, dr⟩ := a
  dsimp only at hck hd hl hi hs hdr hdt1 hdt2
  subst hck hd hl hi hs hdr
  have hc1 : seen.contains mid1 = false := by simpa using hns1
  have hc2 : (seen.insert mid1).contains mid2 = false := by
    simp [List.mem_insert_iff, hneq, hns2]
  have hstep1 : stepItem ⟨true, 0, g, f, some 2, false, false, false⟩
      nowDetect ⟨0, 0, none, seen, some db, 0⟩ c1
      = (⟨1, 0, some t1, seen.insert mid1, some db, 1⟩, true) := by
    simp [stepItem, stepItem.stepImport, is_duplicate_email,
      search_gmail_for_duplicate, updNewest, midTruthy,
      hm1, hm1ne, hc1, hns1, hdt1, hio1, hr1]
  have hstep2 : stepItem ⟨true, 0, g, f, some 2, false, false, false⟩
      nowDetect ⟨1, 0, some t1, seen.insert mid1, some db, 1⟩ c2
      = (⟨2, 0, some t2, (seen.insert mid1).insert mid2, some db, 2⟩,
         true) := by
    simp [stepItem, stepItem.stepImport, is_duplicate_email,
      search_gmail_for_duplicate, updNewest_some_some, midTruthy,
      hm2, hm2ne, hc2, List.mem_insert_iff, hneq, hns2, hdt2, hio2, hr2,
      max_eq_right ht12]
  have hloop : runLoop ⟨true, 0, g, f, some 2, false, false, false⟩
      nowDetect [c1, c2] ⟨0, 0, none, seen, some db, 0⟩
      = ⟨2, 0, some t2, (seen.insert mid1).insert mid2, some db, 2⟩ := by
    rw [runLoop]
    rw [hstep1]
    dsimp only [limitTruthy]
    rw [if_neg (by decide)]
    rw [runLoop]
    rw [hstep2]
    dsimp only [limitTruthy]
    rw [if_pos (by decide)]
  simp only [sync_folder_timebased, clampLastDt, computeThreshold,
    applyThreshold, pyOr, limitTruthy]
  simp only [show ((0 : Nat) ≠ 0) = False by simp, if_false]
  norm_num [List.take]
  rw [hloop]
  simp [ht2now, not_lt.mpr ht2now]

/-- Witness for C9: three concrete fresh candidates with timestamps
10, 20, 30 and limit 2 — two imports, two candidates examined, and the
watermark lands on 20. -/
theorem C9_limit_stops_early_witness :
    (sync_folder_timebased ⟨true, 0, 180, .received, some 2, false, false, false⟩
        0 0 0 100 none
        [⟨⟨some "m1", "s1", "al", some 10, none, "r1"⟩, .notFound, true⟩,
         ⟨⟨some "m2", "s2", "al", some 20, none, "r2"⟩, .notFound, true⟩,
         ⟨⟨some "m3", "s3", "al", some 30, none, "r3"⟩, .notFound, true⟩]
        [] (some [])).count = 2 ∧
    (sync_folder_timebased ⟨true, 0, 180, .received, some 2, false, false, false⟩
        0 0 0 100 none
        [⟨⟨some "m1", "s1", "al", some 10, none, "r1"⟩, .notFound, true⟩,
         ⟨⟨some "m2", "s2", "al", some 20, none, "r2"⟩, .notFound, true⟩,
         ⟨⟨some "m3", "s3", "al", some 30, none, "r3"⟩, .notFound, true⟩]
        [] (some [])).examined = 2 ∧
    (sync_folder_timebased ⟨true, 0, 180, .received, some 2, false, false, false⟩
        0 0 0 100 none
        [⟨⟨some "m1", "s1", "al", some 10, none, "r1"⟩, .notFound, true⟩,
         ⟨⟨some "m2", "s2", "al", some 20, none, "r2"⟩, .notFound, true⟩,
         ⟨⟨some "m3", "s3", "al", some 30, none, "r3"⟩, .notFound, true⟩]
        [] (some [])).newStored = some 20 :=
  C9_limit_stops_early ⟨true, 0, 180, .received, some 2, false, false, false⟩
    ⟨⟨some "m1", "s1", "al", some 10, none, "r1"⟩, .notFound, true⟩
    ⟨⟨some "m2", "s2", "al", some 20, none, "r2"⟩, .notFound, true⟩
    ⟨⟨some "m3", "s3", "al", some 30, none, "r3"⟩, .notFound, true⟩
    0 0 0 100 10 20 [] [] "m1" "m2"
    (by decide) (by decide) (by decide) (by decide) (by decide) (by decide)
    (by decide) (by decide) (by decide) (by decide) (by decide) (by decide)
    (by decide) (by decide) (by decide) (by decide) (by decide) (by decide)
    (by decide) (by decide) (by decide)

end Gmsync
